import Mathlib

/-
Verification of the blue-gopher Bluesky CLI client: a shallow embedding of
the pagination loops, batching drivers, session authentication, request
executor, list-URL resolution and the bulk list-membership driver, with
theorems settling the specified properties.
-/

namespace BlueGopher

/-- Model of a decoded Go JSON value, as produced by encoding/json
Unmarshal into interface values. Numbers are modelled as integers, which
suffices for every value this development inspects. -/
inductive Json where
  | null : Json
  | bool (b : Bool) : Json
  | num (n : Int) : Json
  | str (s : String) : Json
  | arr (xs : List Json) : Json
  | obj (fields : List (String × Json)) : Json
deriving BEq

/-- Model of a Go map produced by unmarshalling a JSON object into a
map from string to interface: an association list of fields. -/
abbrev JsonMap := List (String × Json)

/-- Model of the checked Go type assertion of an interface value to
string, as in the form with an ok flag: some value when the dynamic type
is string, none otherwise. -/
def goStringAssert : Json → Option String
  | Json.str s => some s
  | _ => none

/-- Continuation test of the author-feed and post-search pagination
loops: the loop continues exactly when the response holds a cursor key
whose value type-asserts to a string and that string is nonempty,
mirroring the checked assertion with ok flag in GetAuthorFeeds and
SearchPostsBulk. -/
def feedContinue (resp : JsonMap) : Bool :=
  match (List.lookup "cursor" resp).bind goStringAssert with
  | some s => !(s == "")
  | none => false

/-- Number of page requests the GetAuthorFeeds loop issues when the
server answers the successive requests with the given response
sequence: the loop always issues a request, then continues only when
feedContinue holds of the answer. -/
def authorFeedRequests : List JsonMap → Nat
  | [] => 0
  | r :: rest => 1 + (if feedContinue r then authorFeedRequests rest else 0)

/-- Outcome of one evaluation of the cursor handling at the bottom of
the GetFollowers and GetFollows loops: stop when the cursor key is
absent or its string value is empty, continue with the new cursor when
the value is a nonempty string, and crash (a Go runtime panic) when the
key is present but its value is not a string, since the code there
applies an unchecked type assertion to string. -/
inductive LoopStep where
  | stop : LoopStep
  | crash : LoopStep
  | next (cursor : String) : LoopStep
deriving BEq

/-- Cursor handling of the GetFollowers and GetFollows loops, which
read the cursor key with a presence check and then apply an unchecked
string type assertion to its value. -/
def followersStep (resp : JsonMap) : LoopStep :=
  match List.lookup "cursor" resp with
  | none => LoopStep.stop
  | some v =>
    match goStringAssert v with
    | none => LoopStep.crash
    | some s => if s == "" then LoopStep.stop else LoopStep.next s

/-- Number of page requests the GetFollowers and GetFollows loops issue
when the server answers the successive requests with the given response
sequence; a crash of the step also ends the requests. -/
def followersRequests : List JsonMap → Nat
  | [] => 0
  | r :: rest =>
    1 + (match followersStep r with
         | LoopStep.next _ => followersRequests rest
         | _ => 0)

/-- Number of page requests the SearchPostsBulk loop issues, given its
page limit, the current page number and the response sequence: the
cursor test runs first, and only afterwards the page counter is
advanced and compared against the limit, a limit of zero meaning no
limit. The GetAuthorFeedsBulk inner loop has this same shape. -/
def searchRequests (pageLimit : Nat) : Nat → List JsonMap → Nat
  | _, [] => 0
  | page, r :: rest =>
    1 + (if feedContinue r then
           (if page + 1 > pageLimit && !(pageLimit == 0) then 0
            else searchRequests pageLimit (page + 1) rest)
         else 0)

/-- Feed content of a server page holding the given number of items;
the items themselves are opaque to the pagination loop. -/
def feedItems (n : Nat) : Json :=
  Json.arr (List.replicate n Json.null)

/-- Response sequence of a mock server holding a total number of items
and serving them in pages of the given size, returning a nonempty
continuation cursor exactly while more items remain after the page. A
page size of zero is degenerate and answered with a single final
page. -/
def serverPages (ps : Nat) (total : Nat) : List JsonMap :=
  if h : total ≤ ps ∨ ps = 0 then
    [[("feed", feedItems total)]]
  else
    [("feed", feedItems ps), ("cursor", Json.str "next")] :: serverPages ps (total - ps)
termination_by total
decreasing_by
  rw [not_or] at h
  omega

/-- Test of whether a character list starts with another, used by the
split model below. -/
def listStartsWith : List Char → List Char → Bool
  | _, [] => true
  | [], _ :: _ => false
  | a :: as, b :: bs => a == b && listStartsWith as bs

/-- Worker of the split model: scans the character list left to right,
emitting the accumulated chunk and skipping the separator at each
leftmost separator occurrence. The fuel argument only bounds the
recursion and is always supplied larger than the list length, so the
zero-fuel branch is never reached. -/
def goSplitAux (sep : List Char) : Nat → List Char → List Char → List (List Char)
  | 0, acc, rest => [acc.reverse ++ rest]
  | _ + 1, acc, [] => [acc.reverse]
  | fuel + 1, acc, c :: cs =>
    if listStartsWith (c :: cs) sep then
      acc.reverse :: goSplitAux sep fuel [] ((c :: cs).drop sep.length)
    else
      goSplitAux sep fuel (c :: acc) cs

/-- Model of the Go strings.Split function: all chunks of the string
between non-overlapping leftmost occurrences of the separator, the
empty separator splitting into the individual characters. -/
def goSplit (s sep : String) : List String :=
  if sep.data.isEmpty then
    s.data.map (fun c => String.mk [c])
  else
    (goSplitAux sep.data (s.data.length + 1) [] s.data).map String.mk

/-- Model of the Go strings.Contains function for a nonempty substring:
splitting on the substring yields more than one chunk exactly when the
substring occurs. -/
def goContains (s sub : String) : Bool :=
  decide (2 ≤ (goSplit s sub).length)

/-- Joining with a separator, the inverse direction of the split
model. -/
def joinWith (sep : String) : List String → String
  | [] => ""
  | [x] => x
  | x :: xs => x ++ sep ++ joinWith sep xs

/-- Identifier list the GetProfilesBulk driver accumulates from
standard input: each line is split on commas and the pieces are
appended in order. -/
def bulkActors (lines : List String) : List String :=
  (lines.map (fun line => goSplit line ",")).flatten

/-- Batches the GetProfilesBulk driver passes to the remote profiles
call: slices of the actor list of at most twenty five elements, taken
in order, mirroring the index loop with its fixed batch size. -/
def profileBatches : List String → List (List String)
  | [] => []
  | x :: xs => ((x :: xs).take 25) :: profileBatches ((x :: xs).drop 25)
termination_by l => l.length
decreasing_by
  simp only [List.length_drop, List.length_cons]
  omega

/-- Model of a Go error value; the status variant keeps the status code
and response body the formatted message interpolates, and the wrap
variant models error wrapping with a context message. -/
inductive GoError where
  | msg (s : String) : GoError
  | statusError (code : Nat) (body : Json) : GoError
  | wrap (context : String) (cause : GoError) : GoError
deriving BEq

/-- An HTTP response as the transport delivers it to SendRequest: the
status code and the fully read response body, the body already viewed
as its decoded JSON value. -/
structure HttpResponse where
  status : Nat
  body : Json
deriving BEq

/-- Headers SendRequest sets on the outgoing request: the content type
always, and the bearer authorization header exactly when the client
token is nonempty. -/
def sendRequestHeaders (authToken : String) : List (String × String) :=
  ("Content-Type", "application/json") ::
    (if authToken == "" then [] else [("Authorization", "Bearer " ++ authToken)])

/-- The SendRequest executor over a transport outcome: a connection
failure is wrapped and surfaced, a non-200 status becomes an error
carrying the status code and the response body, and a 200 status yields
the raw response body. -/
def sendRequest (authToken : String) (transport : Except GoError HttpResponse) :
    Except GoError Json :=
  match transport with
  | Except.error e => Except.error (GoError.wrap "failed to execute request" e)
  | Except.ok res =>
    if res.status == 200 then Except.ok res.body
    else Except.error (GoError.statusError res.status res.body)

/-- The fields of the session response that this development inspects:
identity and the access token. -/
structure SessionResp where
  did : String
  handle : String
  accessJwt : String
deriving BEq

/-- Unmarshalling of one string field of a JSON object in the manner of
encoding/json into a struct: an absent field yields the empty string, a
present string field yields its value, and a field of any other type is
an unmarshal error. -/
def getStringField (fields : JsonMap) (name : String) : Except GoError String :=
  match List.lookup name fields with
  | none => Except.ok ""
  | some v =>
    match goStringAssert v with
    | some s => Except.ok s
    | none => Except.error (GoError.msg "failed to unmarshal response body")

/-- Unmarshalling of a session response body into the session struct:
the body must be a JSON object and each inspected field must be absent
or a string. -/
def unmarshalSession (body : Json) : Except GoError SessionResp :=
  match body with
  | Json.obj fields =>
    match getStringField fields "did" with
    | Except.error e => Except.error e
    | Except.ok did =>
      match getStringField fields "handle" with
      | Except.error e => Except.error e
      | Except.ok handle =>
        match getStringField fields "accessJwt" with
        | Except.error e => Except.error e
        | Except.ok accessJwt => Except.ok { did := did, handle := handle, accessJwt := accessJwt }
  | _ => Except.error (GoError.msg "failed to unmarshal response body")

/-- The client record: base URL, the auth token attached to requests,
and the stored session. -/
structure Client where
  baseURL : String
  authToken : String
  session : SessionResp
deriving BEq

/-- The createSession operation over the outcome of its single request:
a send failure is wrapped and returned with the client untouched, an
unmarshal failure is returned with the client untouched, a response
with an empty access token is rejected with the client untouched, and
otherwise the token and session are stored on the client and the
session returned. -/
def createSession (c : Client) (transport : Except GoError HttpResponse) :
    Client × Except GoError SessionResp :=
  match sendRequest c.authToken transport with
  | Except.error e => (c, Except.error (GoError.wrap "failed to send request" e))
  | Except.ok body =>
    match unmarshalSession body with
    | Except.error e => (c, Except.error e)
    | Except.ok s =>
      if s.accessJwt == "" then
        (c, Except.error (GoError.msg "failed to authenticate: missing access token"))
      else
        ({ c with authToken := s.accessJwt, session := s }, Except.ok s)

/-- The createSession operation run against a queue of transport
outcomes for successive requests, also returning how many requests it
issued: the code issues a single request and never consults a second
outcome. -/
def createSessionRun (c : Client) (transports : List (Except GoError HttpResponse)) :
    (Client × Except GoError SessionResp) × Nat :=
  match transports with
  | [] => ((c, Except.error (GoError.msg "no response available")), 0)
  | t :: _ => (createSession c t, 1)

/-- The GetProfiles operation of the client variant that enforces the
batch ceiling locally: a list of more than twenty five actors is
rejected before any request, otherwise the single request is sent and
its body unmarshalled into a map. The second component counts the
requests issued. -/
def getProfiles (c : Client) (transport : Except GoError HttpResponse) (actors : List String) :
    Except GoError JsonMap × Nat :=
  if actors.length > 25 then
    (Except.error (GoError.msg "too many actors: maximum allowed is 25"), 0)
  else
    match sendRequest c.authToken transport with
    | Except.error e => (Except.error e, 1)
    | Except.ok body =>
      match body with
      | Json.obj fields => (Except.ok fields, 1)
      | _ => (Except.error (GoError.msg "failed to unmarshal response body"), 1)

/-- Path component of an absolute URL, modelling the Path field that
the Go net/url Parse function yields on the http and https URLs this
code handles: everything from the first slash after the scheme
separator, and the empty string when there is no slash after the
host. -/
def urlPath (s : String) : String :=
  match goSplit s "://" with
  | [] => ""
  | [p] => p
  | _ :: rest =>
    match goSplit (joinWith "://" rest) "/" with
    | [] => ""
    | [_host] => ""
    | _host :: comps => "/" ++ joinWith "/" comps

/-- The ListATURI operation: strip any query string, split the URL path
on slashes, require at least five path components and the bsky.app
profile and lists markers in the URL, resolve the handle at component
two through the profile lookup, read its did field as a string, and
assemble the at resource locator with the list id at component
four. The profile lookup stands for the GetProfile call. -/
def listATURI (getProfile : String → Except GoError JsonMap) (listURL0 : String) :
    Except GoError String :=
  let listURL := (goSplit listURL0 "?").headD ""
  let pathComponents := goSplit (urlPath listURL) "/"
  if pathComponents.length < 5 || !goContains listURL "bsky.app/profile/" ||
      !goContains listURL "/lists/" then
    Except.error (GoError.msg "invalid list URL format")
  else
    match getProfile (pathComponents.getD 2 "") with
    | Except.error e => Except.error (GoError.wrap "failed to get profile" e)
    | Except.ok profile =>
      match List.lookup "did" profile with
      | some v =>
        match goStringAssert v with
        | some did =>
          Except.ok ("at://" ++ did ++ "/app.bsky.graph.list/" ++ pathComponents.getD 4 "")
        | none => Except.error (GoError.msg "failed to get DID from profile")
      | none => Except.error (GoError.msg "failed to get DID from profile")

/-- The mocked profile lookup of the list-URL resolution scenario: the
handle alice.test resolves to a document whose did field is
did:plc:abc123. -/
def mockProfileLookup (handle : String) : Except GoError JsonMap :=
  if handle == "alice.test" then Except.ok [("did", Json.str "did:plc:abc123")]
  else Except.error (GoError.msg "profile not found")

/-- The two fields the ListItemBulk driver unmarshals from each input
line. -/
structure LineData where
  did : String
  handle : String
deriving BEq

/-- Outcome of one input line of the ListItemBulk driver: skipped when
blank, a logged unmarshal failure, a logged missing-field failure, a
logged remote-call failure, or a successful addition. -/
inductive ItemOutcome where
  | skippedBlank : ItemOutcome
  | unmarshalFailed (emsg : String) : ItemOutcome
  | invalidData : ItemOutcome
  | addFailed (did : String) (e : GoError) : ItemOutcome
  | added (did : String) (resp : JsonMap) : ItemOutcome
deriving BEq

/-- Processing of one line by the ListItemBulk driver: trim, skip when
empty, unmarshal the did and handle fields, reject when either is
missing, and otherwise attempt the remote list-item creation. Each
failure path in the Go loop logs and continues, so each maps to an
outcome rather than aborting. The unmarshalLine parameter stands for
the Go JSON unmarshalling of the line and the listItem parameter for
the remote call. -/
def processLine (unmarshalLine : String → Except String LineData)
    (listItem : String → Except GoError JsonMap) (line : String) : ItemOutcome :=
  let l := line.trim
  if l == "" then ItemOutcome.skippedBlank
  else
    match unmarshalLine l with
    | Except.error e => ItemOutcome.unmarshalFailed e
    | Except.ok d =>
      if d.did == "" || d.handle == "" then ItemOutcome.invalidData
      else
        match listItem d.did with
        | Except.error e => ItemOutcome.addFailed d.did e
        | Except.ok resp => ItemOutcome.added d.did resp

/-- The ListItemBulk driver over the lines read from standard input:
every line is processed in order and yields exactly one outcome. -/
def listItemBulk (unmarshalLine : String → Except String LineData)
    (listItem : String → Except GoError JsonMap) : List String → List ItemOutcome
  | [] => []
  | line :: rest =>
    processLine unmarshalLine listItem line :: listItemBulk unmarshalLine listItem rest

/-- An observable event of the Tmp Authenticate function: a write to
standard output, or the outgoing authentication request. -/
inductive Event where
  | stdout (s : String) : Event
  | httpPost (url : String) (body : String) : Event
deriving BEq

/-- Event trace of the Tmp Authenticate function up to and including
its authentication request; later events depend on the response and are
not needed here. The marshalCreds parameter stands for the Go JSON
marshalling of the identifier and password map. -/
def authenticateTrace (marshalCreds : String → String → String)
    (pdshost user pass : String) : List Event :=
  [Event.stdout ("BLUESKY_HANDLE: " ++ user ++ "\n"),
    Event.stdout ("BLUESKY_PASSWORD: " ++ pass ++ "\n"),
    Event.stdout ("Request Body:\n" ++ marshalCreds user pass ++ "\n"),
    Event.httpPost (pdshost ++ "/xrpc/com.atproto.server.createSession")
      (marshalCreds user pass)]

/-- The standard-output writes of an event trace, in order. -/
def stdoutWrites : List Event → List String
  | [] => []
  | Event.stdout s :: rest => s :: stdoutWrites rest
  | Event.httpPost _ _ :: rest => stdoutWrites rest

/-- The standard-output writes of an event trace that happen strictly
before its first outgoing request. -/
def writesBeforeFirstRequest : List Event → List String
  | [] => []
  | Event.stdout s :: rest => s :: writesBeforeFirstRequest rest
  | Event.httpPost _ _ :: _ => []

/-- Helper: request count of the pagination driver against the mock
server, expressed with a max to cover the empty-store case, proved by
strong induction on the remaining total. -/
theorem serverPages_requests (ps : Nat) (hps : 0 < ps) :
    ∀ total, authorFeedRequests (serverPages ps total) = max 1 ((total + ps - 1) / ps) := by
  intro total
  induction total using Nat.strong_induction_on with
  | _ total ih =>
    rw [serverPages]
    by_cases h : total ≤ ps ∨ ps = 0
    · rw [dif_pos h]
      have htot : total ≤ ps := by omega
      have hdiv : (total + ps - 1) / ps < 2 := by
        rw [Nat.div_lt_iff_lt_mul hps]
        omega
      simp only [authorFeedRequests, feedContinue, List.lookup]
      norm_num
      omega
    · rw [dif_neg h]
      rw [not_or] at h
      have hlt : total - ps < total := by omega
      have hrec := ih (total - ps) hlt
      have hcont : feedContinue [("feed", feedItems ps), ("cursor", Json.str "next")] = true := rfl
      simp only [authorFeedRequests, hcont, if_true]
      rw [hrec]
      have key : (total + ps - 1) / ps = (total - ps + ps - 1) / ps + 1 := by
        have e1 : total + ps - 1 = (total - ps + ps - 1) + ps := by omega
        rw [e1, Nat.add_div_right _ hps]
      have hone : 1 ≤ (total - ps + ps - 1) / ps := by
        rw [Nat.le_div_iff_mul_le hps]
        omega
      rw [key]
      omega

/-- C1: each pagination loop of the repository (author feed, followers,
follows, post search) stops immediately, issuing no further page
request, as soon as a response carries no cursor key or a cursor that
is the empty string: on such a response the traversal issues exactly
the one request that produced it, whatever responses would follow. -/
theorem pagination_stops_on_missing_or_empty_cursor (r : JsonMap) (rest : List JsonMap)
    (pl page : Nat)
    (h : List.lookup "cursor" r = none ∨ List.lookup "cursor" r = some (Json.str "")) :
    authorFeedRequests (r :: rest) = 1 ∧ followersRequests (r :: rest) = 1 ∧
      searchRequests pl page (r :: rest) = 1 := by
  have hf : feedContinue r = false := by
    rcases h with h | h <;> simp [feedContinue, h, goStringAssert]
  have hs : followersStep r = LoopStep.stop := by
    rcases h with h | h <;> simp [followersStep, h, goStringAssert]
  refine ⟨?_, ?_, ?_⟩ <;>
    simp [authorFeedRequests, followersRequests, searchRequests, hf, hs]

/-- Witness for C1 at a concrete response without a cursor key,
followed by a page that would allow continuation: the loops still issue
exactly one request. -/
theorem pagination_stops_witness :
    (List.lookup "cursor" ([] : JsonMap) = none ∨
      List.lookup "cursor" ([] : JsonMap) = some (Json.str "")) ∧
      (authorFeedRequests ([] :: [[("cursor", Json.str "more")]]) = 1 ∧
        followersRequests ([] :: [[("cursor", Json.str "more")]]) = 1 ∧
        searchRequests 0 1 ([] :: [[("cursor", Json.str "more")]]) = 1) :=
  ⟨Or.inl rfl,
    pagination_stops_on_missing_or_empty_cursor [] [[("cursor", Json.str "more")]] 0 1
      (Or.inl rfl)⟩

/-- Counterexample to C2 as stated: with a server holding zero items
and page size one hundred, the driver still issues its unconditional
first request, so the request count is one and not the stated ceiling
of totalItems over pageSize, which is zero. -/
theorem pagination_request_count_counterexample :
    authorFeedRequests (serverPages 100 0) ≠ (0 + 100 - 1) / 100 := by
  rw [serverPages]
  norm_num [authorFeedRequests, feedContinue, List.lookup]

/-- C2 amended: against a server holding totalItems items served in
pages of size pageSize with a nonempty continuation cursor exactly
while more items remain, the pagination driver issues exactly the
ceiling of totalItems over pageSize requests when totalItems is
positive, and exactly one request when totalItems is zero, since the
first request is issued unconditionally. -/
theorem pagination_request_count (ps total : Nat) (hps : 0 < ps) :
    authorFeedRequests (serverPages ps total) =
      if total = 0 then 1 else (total + ps - 1) / ps := by
  rw [serverPages_requests ps hps total]
  by_cases h : total = 0
  · subst h
    have hlt : (0 + ps - 1) / ps < 1 := by
      rw [Nat.div_lt_iff_lt_mul hps]
      omega
    show max 1 ((0 + ps - 1) / ps) = 1
    omega
  · have : ps ≤ total + ps - 1 := by omega
    have h1 : 1 ≤ (total + ps - 1) / ps := by
      rw [Nat.le_div_iff_mul_le hps]
      omega
    rw [if_neg h]
    omega

/-- Witness for C2 amended at page size twenty five and total sixty:
the driver issues exactly three requests. -/
theorem pagination_request_count_witness :
    0 < 25 ∧ authorFeedRequests (serverPages 25 60) = if (60 : Nat) = 0 then 1 else (60 + 25 - 1) / 25 :=
  ⟨by norm_num, pagination_request_count 25 60 (by norm_num)⟩

/-- Counterexample to C8 as stated: the followers and follows loops do
not evaluate totally on every decoded response map; on a response whose
cursor key holds a number, the unchecked string type assertion fails at
runtime. -/
theorem followers_cursor_crash_counterexample :
    followersStep [("cursor", Json.num 1)] = LoopStep.crash := rfl

/-- C8 amended: the followers and follows cursor handling avoids a
runtime type failure exactly when every value present at the cursor key
type-asserts to a string; a response whose cursor value is any
non-string JSON value crashes the loop. -/
theorem followers_cursor_read_total_iff (resp : JsonMap) :
    followersStep resp ≠ LoopStep.crash ↔
      ∀ v, List.lookup "cursor" resp = some v → (goStringAssert v).isSome := by
  unfold followersStep
  cases hl : List.lookup "cursor" resp with
  | none => simp
  | some v =>
    cases hv : goStringAssert v with
    | none => simp [hv]
    | some s =>
      by_cases hse : s == ""
      · simp [hv, hse]
      · simp [hv, hse]

/-- Witness for C8 amended at a concrete response whose cursor value is
a string: the step does not crash. -/
theorem followers_cursor_read_total_witness :
    followersStep [("cursor", Json.str "tok")] ≠ LoopStep.crash :=
  (followers_cursor_read_total_iff [("cursor", Json.str "tok")]).mpr
    (by intro v hv; cases hv; rfl)

/-- Helper for C3: the batches of any actor list are bounded by the
batch constant and concatenate back to the list, by functional
induction along the batching recursion. -/
theorem profileBatches_spec (actors : List String) :
    ((profileBatches actors).all fun b => b.length ≤ 25) = true ∧
      (profileBatches actors).flatten = actors := by
  induction actors using profileBatches.induct with
  | case1 => simp [profileBatches]
  | case2 x xs ih =>
    obtain ⟨ih1, ih2⟩ := ih
    rw [profileBatches]
    refine ⟨?_, ?_⟩
    · simp only [List.all_cons, ih1, Bool.and_true, decide_eq_true_eq, List.length_take]
      omega
    · simp only [List.flatten_cons, ih2, List.take_append_drop]

/-- C3: every batch the GetProfilesBulk driver passes to the remote
profiles call has at most twenty five identifiers, and the batches
concatenated in the order they are sent give back the full identifier
list read from standard input in its original order. -/
theorem bulk_profiles_batching (lines : List String) :
    ((profileBatches (bulkActors lines)).all fun b => b.length ≤ 25) = true ∧
      (profileBatches (bulkActors lines)).flatten = bulkActors lines :=
  profileBatches_spec (bulkActors lines)

/-- C6: the request executor yields the raw response body exactly when
the status is 200, on any other status it fails with an error carrying
both the status code and the response body, and the bearer
authorization header is attached exactly when the client token is
nonempty. -/
theorem send_request_contract (authToken : String) (res : HttpResponse) :
    (sendRequest authToken (Except.ok res) = Except.ok res.body ↔ res.status = 200) ∧
      (res.status ≠ 200 →
        sendRequest authToken (Except.ok res) =
          Except.error (GoError.statusError res.status res.body)) ∧
      (("Authorization", "Bearer " ++ authToken) ∈ sendRequestHeaders authToken ↔
        authToken ≠ "") := by
  refine ⟨?_, ?_, ?_⟩
  · by_cases h : res.status = 200 <;> simp [sendRequest, h]
  · intro h
    simp [sendRequest, h]
  · by_cases h : authToken = "" <;> simp [sendRequestHeaders, h]

/-- Witness for C6 at a concrete non-success response and a concrete
nonempty token: the executor returns the status error and the bearer
header is attached. -/
theorem send_request_contract_witness :
    ((404 : Nat) ≠ 200 ∧
      sendRequest "tok" (Except.ok ⟨404, Json.str "oops"⟩) =
        Except.error (GoError.statusError 404 (Json.str "oops"))) ∧
      (("tok" : String) ≠ "" ∧
        ("Authorization", "Bearer " ++ "tok") ∈ sendRequestHeaders "tok") :=
  ⟨⟨by decide, (send_request_contract "tok" ⟨404, Json.str "oops"⟩).2.1 (by decide)⟩,
    ⟨by decide, (send_request_contract "tok" ⟨404, Json.str "oops"⟩).2.2.mpr (by decide)⟩⟩

/-- C5: the session creation operation issues exactly one request and
never consults a further response; when it succeeds the returned
session has a nonempty access token, the client token is set to it and
the session is stored; on any failure, including a transport failure, a
non-success status and a response missing the access token, an error is
returned and the client token is left unset. -/
theorem create_session_contract (c : Client) (t : Except GoError HttpResponse)
    (rest : List (Except GoError HttpResponse)) (hinit : c.authToken = "") :
    (createSessionRun c (t :: rest)).2 = 1 ∧
      (∀ s, (createSession c t).2 = Except.ok s →
        (createSession c t).1.authToken = s.accessJwt ∧ s.accessJwt ≠ "" ∧
          (createSession c t).1.session = s) ∧
      (∀ e, (createSession c t).2 = Except.error e → (createSession c t).1.authToken = "") := by
  refine ⟨rfl, ?_, ?_⟩ <;>
    · unfold createSession
      cases hsr : sendRequest c.authToken t with
      | error e => simp [hinit]
      | ok body =>
        cases hum : unmarshalSession body with
        | error e => simp [hum, hinit]
        | ok s =>
          by_cases hjwt : s.accessJwt = "" <;> simp [hum, hjwt, hinit]

/-- Witness for C5 at a fresh client and a successful concrete
response: exactly one request, the token is set to the returned access
token. -/
theorem create_session_contract_witness :
    (createSessionRun { baseURL := "b", authToken := "", session := ⟨"", "", ""⟩ }
        [Except.ok ⟨200, Json.obj [("accessJwt", Json.str "jwt1")]⟩]).2 = 1 ∧
      (∀ s,
        (createSession { baseURL := "b", authToken := "", session := ⟨"", "", ""⟩ }
            (Except.ok ⟨200, Json.obj [("accessJwt", Json.str "jwt1")]⟩)).2 = Except.ok s →
        (createSession { baseURL := "b", authToken := "", session := ⟨"", "", ""⟩ }
            (Except.ok ⟨200, Json.obj [("accessJwt", Json.str "jwt1")]⟩)).1.authToken =
            s.accessJwt ∧ s.accessJwt ≠ "" ∧
          (createSession { baseURL := "b", authToken := "", session := ⟨"", "", ""⟩ }
              (Except.ok ⟨200, Json.obj [("accessJwt", Json.str "jwt1")]⟩)).1.session = s) ∧
      (∀ e,
        (createSession { baseURL := "b", authToken := "", session := ⟨"", "", ""⟩ }
            (Except.ok ⟨200, Json.obj [("accessJwt", Json.str "jwt1")]⟩)).2 = Except.error e →
        (createSession { baseURL := "b", authToken := "", session := ⟨"", "", ""⟩ }
            (Except.ok ⟨200, Json.obj [("accessJwt", Json.str "jwt1")]⟩)).1.authToken = "") :=
  create_session_contract { baseURL := "b", authToken := "", session := ⟨"", "", ""⟩ }
    (Except.ok ⟨200, Json.obj [("accessJwt", Json.str "jwt1")]⟩) [] rfl

/-- C9: the multi-profile fetch of the client variant with the local
ceiling rejects any actor list longer than twenty five with an error
and performs no request, and for any list of at most twenty five actors
it performs exactly one request. -/
theorem get_profiles_local_ceiling (c : Client) (t : Except GoError HttpResponse)
    (actors : List String) :
    (actors.length > 25 →
      (getProfiles c t actors).2 = 0 ∧
        (getProfiles c t actors).1 =
          Except.error (GoError.msg "too many actors: maximum allowed is 25")) ∧
      (actors.length ≤ 25 → (getProfiles c t actors).2 = 1) := by
  by_cases h : actors.length > 25
  · refine ⟨fun _ => ?_, fun h2 => absurd h2 (by omega)⟩
    simp [getProfiles, h]
  · refine ⟨fun h2 => absurd h2 h, fun _ => ?_⟩
    simp only [getProfiles, if_neg h]
    cases sendRequest c.authToken t with
    | error e => rfl
    | ok body => cases body <;> rfl

/-- Counterexample to C4 as stated: on the list URL with host
example.test the resolution does not return the at resource locator; it
rejects the URL, because the code requires the URL to contain the
bsky.app profile marker. -/
theorem list_aturi_example_host_counterexample :
    listATURI mockProfileLookup "https://example.test/profile/alice.test/lists/3k2j" =
        Except.error (GoError.msg "invalid list URL format") ∧
      listATURI mockProfileLookup "https://example.test/profile/alice.test/lists/3k2j" ≠
        Except.ok "at://did:plc:abc123/app.bsky.graph.list/3k2j" := by
  refine ⟨rfl, ?_⟩
  intro hc
  rw [show listATURI mockProfileLookup
        "https://example.test/profile/alice.test/lists/3k2j" =
      Except.error (GoError.msg "invalid list URL format") from rfl] at hc
  exact Except.noConfusion hc

/-- C4 amended: for the list URL with host bsky.app, given the profile
lookup resolving alice.test to the document with did did:plc:abc123,
the list-URL resolution returns the expected at resource locator. -/
theorem list_aturi_resolution :
    listATURI mockProfileLookup "https://bsky.app/profile/alice.test/lists/3k2j" =
      Except.ok "at://did:plc:abc123/app.bsky.graph.list/3k2j" := rfl

/-- C7: the bulk list-membership driver yields exactly one outcome per
input line, and the outcome of each line depends only on that line, so
a failing line, whether malformed, missing a field, or failing
remotely, never prevents any subsequent line from being processed and
never aborts the run. -/
theorem list_item_bulk_processes_every_line (u : String → Except String LineData)
    (li : String → Except GoError JsonMap) (lines : List String) :
    (listItemBulk u li lines).length = lines.length ∧
      ∀ k, (listItemBulk u li lines).get? k = (lines.get? k).map (processLine u li) := by
  induction lines with
  | nil => exact ⟨rfl, fun k => by cases k <;> rfl⟩
  | cons l rest ih =>
    refine ⟨by simp [listItemBulk, ih.1], fun k => ?_⟩
    cases k with
    | zero => rfl
    | succ n => simpa [listItemBulk] using ih.2 n

/-- Helper: an equal prefix and an equal suffix cancel in a string
equation. -/
theorem string_affix_cancel (pre suf x y : String)
    (h : pre ++ x ++ suf = pre ++ y ++ suf) : x = y := by
  have hd : (pre ++ x ++ suf).data = (pre ++ y ++ suf).data := congrArg String.data h
  simp only [String.data_append] at hd
  have h1 := List.append_cancel_right hd
  have h2 := List.append_cancel_left h1
  cases x
  cases y
  exact congrArg String.mk h2

/-- C10: the Tmp Authenticate function writes the values of the handle
and password environment variables verbatim to standard output before
its authentication request is sent, and two runs differing only in the
password produce different standard output, so the secret interferes
with public output. -/
theorem authenticate_prints_secret (marshalCreds : String → String → String)
    (pdshost user p1 p2 : String) (hne : p1 ≠ p2) :
    ("BLUESKY_HANDLE: " ++ user ++ "\n") ∈
        writesBeforeFirstRequest (authenticateTrace marshalCreds pdshost user p1) ∧
      ("BLUESKY_PASSWORD: " ++ p1 ++ "\n") ∈
        writesBeforeFirstRequest (authenticateTrace marshalCreds pdshost user p1) ∧
      stdoutWrites (authenticateTrace marshalCreds pdshost user p1) ≠
        stdoutWrites (authenticateTrace marshalCreds pdshost user p2) := by
  refine ⟨?_, ?_, ?_⟩
  · simp [authenticateTrace, writesBeforeFirstRequest]
  · simp [authenticateTrace, writesBeforeFirstRequest]
  · intro hEq
    apply hne
    simp only [authenticateTrace, stdoutWrites, List.cons.injEq, and_true] at hEq
    exact string_affix_cancel "BLUESKY_PASSWORD: " "\n" p1 p2 hEq.2.1

/-- Witness for C10 at concrete credentials: the password value a is
printed before the request, and changing it to b changes the output. -/
theorem authenticate_prints_secret_witness :
    ("a" : String) ≠ "b" ∧
      (("BLUESKY_HANDLE: " ++ "u" ++ "\n") ∈
          writesBeforeFirstRequest (authenticateTrace (fun _ _ => "") "h" "u" "a") ∧
        ("BLUESKY_PASSWORD: " ++ "a" ++ "\n") ∈
          writesBeforeFirstRequest (authenticateTrace (fun _ _ => "") "h" "u" "a") ∧
        stdoutWrites (authenticateTrace (fun _ _ => "") "h" "u" "a") ≠
          stdoutWrites (authenticateTrace (fun _ _ => "") "h" "u" "b")) :=
  ⟨by decide, authenticate_prints_secret (fun _ _ => "") "h" "u" "a" "b" (by decide)⟩

/-- Witness for C9 at twenty six actors: no request is performed and
the local error is returned. -/
theorem get_profiles_local_ceiling_witness :
    (List.replicate 26 "a").length > 25 ∧
      ((getProfiles { baseURL := "b", authToken := "", session := ⟨"", "", ""⟩ }
          (Except.ok ⟨200, Json.obj []⟩) (List.replicate 26 "a")).2 = 0 ∧
        (getProfiles { baseURL := "b", authToken := "", session := ⟨"", "", ""⟩ }
            (Except.ok ⟨200, Json.obj []⟩) (List.replicate 26 "a")).1 =
          Except.error (GoError.msg "too many actors: maximum allowed is 25")) :=
  ⟨by simp,
    (get_profiles_local_ceiling _ _ _).1 (by simp)⟩

end BlueGopher
